import Mathlib

/-!
Shallow embedding of `src/jira_quize.py` (Jira Refinement Copilot V2).

Modelling conventions:
- Python floats are modelled as rationals (`ℚ`); all numeric literals in the
  source (0.3, 0.6, ...) are short decimals that compare the same way in both.
- The classifier capability is modelled by its observable outcome
  (`ClassifierOut`): it raises, returns text that `json.loads` rejects
  (`badJson`, i.e. `json.JSONDecodeError`), or returns text parsing to a JSON
  value (`parsed`).  JSON values are the inductive `JsonVal`; a JSON object is
  an association list in source order, where a duplicated key keeps the first
  position but the last value, exactly as a CPython dict built by `json.loads`.
- The generator capability is a function from the prompt to `GenOut`
  (it raises, or returns a string).
- Python semantics that matter are modelled explicitly: dictionary `.get`
  with a default, truthiness of arbitrary values, `", ".join` (which raises
  `TypeError` on non-string items and iterates characters of a string),
  `str.strip`, substring containment (`in`), `str.lower`, and the fact that
  an f-string `{x:.2f}` raises on non-numeric `x` (which the enclosing
  `except Exception` then catches).
- Exceptions escaping to a handler are modelled with `Except Unit`.
-/

/-- A JSON value as produced by `json.loads`. -/
inductive JsonVal : Type
  | jnull : JsonVal
  | jbool : Bool → JsonVal
  | jnum : ℚ → JsonVal
  | jstr : String → JsonVal
  | jarr : List JsonVal → JsonVal
  | jobj : List (String × JsonVal) → JsonVal

/-- Python `dict.get k`: for a dict built from an association list with
duplicate keys, the last binding wins (CPython `json.loads` semantics). -/
def plookup {α : Type} (k : String) : List (String × α) → Option α
  | [] => none
  | p :: rest =>
    match plookup k rest with
    | some v => some v
    | none => if p.1 = k then some p.2 else none

/-- Python truthiness (`if x:`) of a JSON-derived value. -/
def truthy : JsonVal → Bool
  | JsonVal.jnull => false
  | JsonVal.jbool b => b
  | JsonVal.jnum q => q ≠ 0
  | JsonVal.jstr s => s ≠ ""
  | JsonVal.jarr xs => !xs.isEmpty
  | JsonVal.jobj fs => !fs.isEmpty

/-- Numeric view used by Python comparisons such as `confidence < threshold`:
ints/floats compare directly, bools compare as 0/1, anything else raises
`TypeError` (here: `none`). -/
def asNum : JsonVal → Option ℚ
  | JsonVal.jnum q => some q
  | JsonVal.jbool b => some (if b then 1 else 0)
  | _ => none

/-- Whether `format(x, ".2f")` succeeds on the value: numbers and bools do,
`None`, strings, lists and dicts raise. -/
def formattableF : JsonVal → Bool
  | JsonVal.jnum _ => true
  | JsonVal.jbool _ => true
  | _ => false

/-- Whether the JSON value is a string. -/
def isJStr : JsonVal → Bool
  | JsonVal.jstr _ => true
  | _ => false

/-- Whether the JSON value is an object (a Python dict, which has `.get`). -/
def isJObj : JsonVal → Bool
  | JsonVal.jobj _ => true
  | _ => false

/-- Python dict keys are hashable strings here; lists and dicts are
unhashable, so using them as a `.get` key raises `TypeError`. -/
def hashableKey : JsonVal → Bool
  | JsonVal.jarr _ => false
  | JsonVal.jobj _ => false
  | _ => true

-- ## String helpers (Python `in`, `lower`, `strip`, `join`)

/-- Boolean list-prefix test. -/
def isPrefB : List Char → List Char → Bool
  | [], _ => true
  | _ :: _, [] => false
  | a :: as, b :: bs => a = b && isPrefB as bs

/-- Boolean substring (contiguous sublist) test, scanning every suffix. -/
def hasSubL (n : List Char) : List Char → Bool
  | [] => isPrefB n []
  | c :: t => isPrefB n (c :: t) || hasSubL n t

/-- Python `w in q` on strings: substring containment. -/
def pyIn (w q : String) : Bool := hasSubL w.data q.data

/-- Python `str.lower` (ASCII range, which covers every keyword used). -/
def pyLower (s : String) : String := String.mk (s.data.map Char.toLower)

/-- Python whitespace characters stripped by `str.strip()` (ASCII range). -/
def isPySpace (c : Char) : Bool :=
  c = ' ' || c = '\t' || c = '\n' || c = '\r' || c = '\x0b' || c = '\x0c'

/-- Python `str.strip()`. -/
def pyStrip (s : String) : String :=
  String.mk (((s.data.dropWhile isPySpace).reverse.dropWhile isPySpace).reverse)

/-- One-character string. -/
def strOfChar (c : Char) : String := String.mk [c]

/-- `", ".join` over a JSON array succeeds only when every item is a string. -/
def allStrings : List JsonVal → Option (List String)
  | [] => some []
  | x :: rest =>
    match x with
    | JsonVal.jstr s => (allStrings rest).map (fun l => s :: l)
    | _ => none

/-- Dict iteration order: first occurrence of each key, duplicates dropped. -/
def dedupFirstAux (seen : List String) : List String → List String
  | [] => []
  | k :: rest =>
    if seen.contains k then dedupFirstAux seen rest
    else k :: dedupFirstAux (k :: seen) rest

/-- Python `sep.join(x)`: joins a list of strings, iterates the characters of
a string, iterates the keys of a dict; raises `TypeError` otherwise, or when
a list item is not a string. -/
def pyJoin (sep : String) : JsonVal → Except Unit String
  | JsonVal.jstr s => Except.ok (String.intercalate sep (s.data.map strOfChar))
  | JsonVal.jarr xs =>
    match allStrings xs with
    | some l => Except.ok (String.intercalate sep l)
    | none => Except.error ()
  | JsonVal.jobj fs =>
    Except.ok (String.intercalate sep (dedupFirstAux [] (fs.map Prod.fst)))
  | _ => Except.error ()

-- ## Configuration tables (section 1-2 and 5 of the source)

/-- Dynamic confidence thresholds per intent (`INTENT_THRESHOLDS`). -/
def INTENT_THRESHOLDS : List (String × ℚ) :=
  [ ("OBJECTIVE_INTENT", mkRat 7 10)
  , ("SCOPE_DEFINITION", mkRat 65 100)
  , ("ACCEPTANCE_CRITERIA", mkRat 6 10)
  , ("UI_UX_BEHAVIOUR", mkRat 6 10)
  , ("FIGMA_ALIGNMENT", mkRat 65 100)
  , ("EDGE_CASE_RISK_ANALYSIS", mkRat 5 10)
  , ("BUSINESS_RULE", mkRat 6 10)
  , ("DEPENDENCY_IMPACT", mkRat 55 100)
  , ("STORY_REFINEMENT", mkRat 5 10)
  , ("DEVELOPMENT_READINESS", mkRat 6 10) ]

/-- The STORY_REFINEMENT clarifying question (`CLARIFYING_QUESTIONS["STORY_REFINEMENT"]`). -/
def CQ_STORY_REFINEMENT : String :=
  "To refine this story, I need more context:\n- What aspect needs refinement (clarity, completeness, readiness)?\n- Are there specific concerns or gaps?\n- What level of detail is needed?"

/-- Intent-specific clarifying questions (`CLARIFYING_QUESTIONS`). -/
def CLARIFYING_QUESTIONS : List (String × String) :=
  [ ("OBJECTIVE_INTENT", "I need a bit more clarity. Could you specify:\n- What business goal does this feature support?\n- Who are the primary users?\n- What problem does this solve?")
  , ("SCOPE_DEFINITION", "To define the scope clearly, please clarify:\n- What functionality is included?\n- What is explicitly out of scope?\n- Are there any phase requirements?")
  , ("ACCEPTANCE_CRITERIA", "To create clear acceptance criteria, I need:\n- What are the specific conditions to be met?\n- What are the expected outcomes?\n- Are there UI/UX or data validation requirements?")
  , ("UI_UX_BEHAVIOUR", "For UI/UX behavior, please specify:\n- What user actions trigger this behavior?\n- What visual feedback should users see?\n- Are there error or loading states?")
  , ("FIGMA_ALIGNMENT", "To ensure Figma alignment, I need:\n- Which Figma design/mockup should be referenced?\n- Are there specific components or flows to validate?\n- Are there any design system requirements?")
  , ("EDGE_CASE_RISK_ANALYSIS", "For edge case analysis, help me understand:\n- What are the expected normal conditions?\n- What unusual inputs or scenarios concern you?\n- Are there integration or data quality risks?")
  , ("BUSINESS_RULE", "To extract business rules clearly:\n- What conditions must be met?\n- What are the validation requirements?\n- Are there any exceptions or special cases?")
  , ("DEPENDENCY_IMPACT", "To identify dependencies, clarify:\n- What other systems or features are affected?\n- Are there API or data dependencies?\n- What\x27s the impact on existing functionality?")
  , ("STORY_REFINEMENT", CQ_STORY_REFINEMENT)
  , ("DEVELOPMENT_READINESS", "To assess development readiness:\n- Have all dependencies been identified?\n- Are acceptance criteria defined?\n- Are there any open questions or blockers?") ]

/-- The master meta prompt (`MASTER_PROMPT`, a triple-quoted string starting
and ending with a newline). -/
def MASTER_PROMPT : String :=
  "\nYou are a Senior Business Analyst, Product Owner, and Jira Coach assistant.\n\nYour role is to help refine Jira tickets by analysing:\n- Business intent\n- Functional scope\n- UI/UX behaviour (including Figma expectations)\n- Acceptance criteria\n- Edge cases, risks, and dependencies\n\nRules:\n- Understand the user\x27s intent first.\n- Adapt response style based on the question.\n- Do NOT assume missing requirements.\n- Clearly list assumptions when information is missing.\n- Ask clarification questions when needed.\n- Provide Jira-ready, practical outputs.\n\nYou are a thinking partner, not a decision authority.\n"

/-- The classifier instruction template with the question interpolated
(`INTENT_CLASSIFIER_PROMPT.format(question=question)`). -/
def INTENT_CLASSIFIER_PROMPT_format (question : String) : String :=
  "\nYou are an intent classifier for a Jira Refinement Copilot.\n\nIdentify:\n- Primary intent\n- Secondary intents (if any)\n- Confidence score (0.0 to 1.0)\n\nReturn JSON ONLY.\n\nPossible intents:\nOBJECTIVE_INTENT\nSCOPE_DEFINITION\nACCEPTANCE_CRITERIA\nUI_UX_BEHAVIOUR\nFIGMA_ALIGNMENT\nEDGE_CASE_RISK_ANALYSIS\nBUSINESS_RULE\nDEPENDENCY_IMPACT\nSTORY_REFINEMENT\nDEVELOPMENT_READINESS\n\nUser Question:\n"
  ++ question ++ "\n"

/-- The STORY_REFINEMENT mode prompt (`MODE_PROMPTS["STORY_REFINEMENT"]`). -/
def MP_STORY_REFINEMENT : String :=
  "Improve clarity and readiness of the requirement.\nCheck: Clear objective, Defined scope, Acceptance criteria, Dependencies identified, Assumptions documented"

/-- Mode prompts with examples and templates (`MODE_PROMPTS`). -/
def MODE_PROMPTS : List (String × String) :=
  [ ("OBJECTIVE_INTENT", "Explain the objective and business purpose.\nFocus on: WHY this feature exists, WHO benefits, and WHAT problem it solves.")
  , ("SCOPE_DEFINITION", "Define in-scope and out-of-scope items.\nStructure: IN SCOPE (what\x27s included), OUT OF SCOPE (what\x27s excluded), ASSUMPTIONS (what\x27s assumed but unconfirmed).")
  , ("ACCEPTANCE_CRITERIA", "Generate clear Given/When/Then acceptance criteria.\n\nTemplate:\n- GIVEN [precondition/context]\n- WHEN [action/trigger]\n- THEN [expected outcome]\n\nExample:\n- GIVEN a user is on the login page\n- WHEN they enter valid credentials and click \x27Login\x27\n- THEN they should be redirected to the dashboard")
  , ("UI_UX_BEHAVIOUR", "Describe expected UI behaviour and states.\nInclude: Default state, Loading state, Success state, Error state, Edge cases (empty, disabled, etc.)")
  , ("FIGMA_ALIGNMENT", "List Figma design checks for alignment.\nVerify: Component spacing, Typography, Colors, Icons, Interaction states (hover, active, disabled), Responsive behavior")
  , ("EDGE_CASE_RISK_ANALYSIS", "Identify edge cases and risks.\nConsider: Invalid inputs, Boundary conditions, System failures, Integration issues, Performance constraints, Security vulnerabilities")
  , ("BUSINESS_RULE", "Extract business rules.\nFormat: IF [condition] THEN [action/outcome] ELSE [alternative]")
  , ("DEPENDENCY_IMPACT", "Identify dependencies and impacts.\nCategories: System dependencies, Data dependencies, Feature dependencies, API dependencies, Impact on existing features")
  , ("STORY_REFINEMENT", MP_STORY_REFINEMENT)
  , ("DEVELOPMENT_READINESS", "Assess if ready for development and list gaps.\nChecklist: ✓/✗ Clear requirements, ✓/✗ Acceptance criteria defined, ✓/✗ Dependencies identified, ✓/✗ Designs available, ✓/✗ Technical approach agreed") ]

/-- Fixed apology returned by `generate_response` when the generator raises
(two adjacent Python string literals concatenate to one string). -/
def GEN_APOLOGY : String :=
  "I apologize, but I encountered an error generating the response. Please try rephrasing your question or contact support if the issue persists."

/-- Fixed apology returned by the orchestrator failure boundary. -/
def PIPELINE_APOLOGY : String :=
  "I apologize, but I encountered an unexpected error processing your request. Please try rephrasing your question or contact support if the issue persists."

-- ## Section 6-7: context extraction and response style detection

/-- The context dictionary built by `extract_context`: always exactly these
8 boolean keys, in this insertion order. -/
structure Ctx where
  ui_related : Bool
  mentions_figma : Bool
  mentions_scope : Bool
  mentions_ac : Bool
  mentions_ready : Bool
  mentions_edge_cases : Bool
  mentions_business_rules : Bool
  has_question_words : Bool

/-- `extract_context`: lower-cases the question and tests substring
containment (`w in q`) for each keyword group. -/
def extract_context (question : String) : Ctx :=
  let q := pyLower question
  { ui_related := ["button", "screen", "click", "field", "page", "form", "input", "modal", "popup"].any (fun w => pyIn w q)
  , mentions_figma := pyIn "figma" q || pyIn "mockup" q || pyIn "design mockup" q || pyIn "ui design" q
  , mentions_scope := pyIn "scope" q || pyIn "in-scope" q || pyIn "out of scope" q
  , mentions_ac := ["acceptance", "ac", "criteria"].any (fun w => pyIn w q)
  , mentions_ready := ["ready", "sprint", "development"].any (fun w => pyIn w q)
  , mentions_edge_cases := ["edge", "risk", "error", "failure", "exception"].any (fun w => pyIn w q)
  , mentions_business_rules := (["rule", "validation", "condition"].any (fun w => pyIn w q)) || pyIn "if then" q || pyIn "if-then" q
  , has_question_words := ["what", "why", "how", "when", "where", "who"].any (fun w => pyIn w q) }

/-- The conversational-indicator test of `detect_response_style`. -/
def conversationalIndicator (q : String) : Bool :=
  ["just explain", "in simple terms", "what is", "why", "help me understand"].any (fun w => pyIn w q)

/-- The structured-indicator test of `detect_response_style`. -/
def structuredIndicator (q : String) : Bool :=
  ["acceptance", "scope", "ready", "criteria", "list", "define"].any (fun w => pyIn w q)

/-- `detect_response_style`: conversational indicators are tested first,
then structured ones, otherwise HYBRID. -/
def detect_response_style (question : String) : String :=
  let q := pyLower question
  if conversationalIndicator q then "CONVERSATIONAL"
  else if structuredIndicator q then "STRUCTURED"
  else "HYBRID"

-- ## Section 8: intent classification

/-- Observable outcome of the classifier capability on a prompt: it raises,
returns text rejected by `json.loads` (`json.JSONDecodeError`), or returns
text parsing to the JSON value `v`. -/
inductive ClassifierOut : Type
  | raises : ClassifierOut
  | badJson : ClassifierOut
  | parsed : JsonVal → ClassifierOut

/-- The dictionary built by `classify_intent` (keys `primary`, `secondary`,
`confidence`); each value is an arbitrary JSON-derived Python value. -/
structure ClassificationResult where
  primary : JsonVal
  secondary : JsonVal
  confidence : JsonVal

/-- `classify_intent`.  The `json.JSONDecodeError` handler yields confidence
0.4; every other exception hits the generic handler and yields confidence
0.3 — including the `AttributeError` when the parsed JSON is not an object
(no `.get`), and the error raised by the f-string `{result["confidence"]:.2f}`
in the success-path log line when the parsed confidence is not a number. -/
def classify_intent (llm_classifier : String → ClassifierOut) (question : String) : ClassificationResult :=
  let prompt := INTENT_CLASSIFIER_PROMPT_format question
  match llm_classifier prompt with
  | ClassifierOut.raises =>
    ⟨JsonVal.jstr "STORY_REFINEMENT", JsonVal.jarr [], JsonVal.jnum (mkRat 3 10)⟩
  | ClassifierOut.badJson =>
    ⟨JsonVal.jstr "STORY_REFINEMENT", JsonVal.jarr [], JsonVal.jnum (mkRat 4 10)⟩
  | ClassifierOut.parsed data =>
    match data with
    | JsonVal.jobj fields =>
      let result : ClassificationResult :=
        ⟨(plookup "primary_intent" fields).getD (JsonVal.jstr "STORY_REFINEMENT"),
         (plookup "secondary_intents" fields).getD (JsonVal.jarr []),
         (plookup "confidence" fields).getD (JsonVal.jnum (mkRat 5 10))⟩
      if formattableF result.confidence then result
      else ⟨JsonVal.jstr "STORY_REFINEMENT", JsonVal.jarr [], JsonVal.jnum (mkRat 3 10)⟩
    | _ => ⟨JsonVal.jstr "STORY_REFINEMENT", JsonVal.jarr [], JsonVal.jnum (mkRat 3 10)⟩

-- ## Section 9: assumption gate

/-- `assumption_gate` (the context dict always carries all keys, so
`context.get(k, False)` is plain field access). -/
def assumption_gate (intent : String) (context : Ctx) : Bool :=
  if intent = "ACCEPTANCE_CRITERIA" ∨ intent = "DEVELOPMENT_READINESS" then !context.ui_related
  else if intent = "FIGMA_ALIGNMENT" then !context.mentions_figma
  else if intent = "SCOPE_DEFINITION" then !context.mentions_scope
  else false

/-- `assumption_gate` as invoked by the orchestrator, where the primary
intent is an arbitrary JSON-derived value: `x in [..]` and `x == "..."` are
simply false for non-strings, so the gate returns False. -/
def assumption_gateJ (p : JsonVal) (context : Ctx) : Bool :=
  match p with
  | JsonVal.jstr s => assumption_gate s context
  | _ => false

-- ## Section 10: final prompt composer

/-- Python `repr` of a bool. -/
def pyBoolRepr (b : Bool) : String := if b then "True" else "False"

/-- Python `repr` of the context dict, as interpolated by the f-string
`{context}` in the composed prompt. -/
def ctxRepr (c : Ctx) : String :=
  "\x7b\x27ui_related\x27: " ++ pyBoolRepr c.ui_related
  ++ ", \x27mentions_figma\x27: " ++ pyBoolRepr c.mentions_figma
  ++ ", \x27mentions_scope\x27: " ++ pyBoolRepr c.mentions_scope
  ++ ", \x27mentions_ac\x27: " ++ pyBoolRepr c.mentions_ac
  ++ ", \x27mentions_ready\x27: " ++ pyBoolRepr c.mentions_ready
  ++ ", \x27mentions_edge_cases\x27: " ++ pyBoolRepr c.mentions_edge_cases
  ++ ", \x27mentions_business_rules\x27: " ++ pyBoolRepr c.mentions_business_rules
  ++ ", \x27has_question_words\x27: " ++ pyBoolRepr c.has_question_words
  ++ "\x7d"

/-- `compose_final_prompt`: the f-string, grouped (without reassociation of
the text) so that the `style` and `question` interpolations are visible. -/
def compose_final_prompt (master mode_prompt question : String) (context : Ctx) (style : String) (require_assumptions : Bool) : String :=
  let assumption_instruction :=
    if require_assumptions then
      "\nIf information is missing:\n- List assumptions explicitly\n- Ask clarification questions\n"
    else ""
  let context_instructions :=
    (if context.mentions_figma then "\n⚠️ IMPORTANT: User mentioned Figma. Emphasize design alignment checks and verify against Figma mockups." else "")
    ++ (if context.ui_related && !context.mentions_figma then "\n⚠️ NOTE: This is UI-related. Consider suggesting Figma validation if designs exist." else "")
    ++ (if context.mentions_edge_cases then "\n⚠️ FOCUS: User is concerned about edge cases. Provide comprehensive risk analysis." else "")
  ("\n" ++ master ++ "\n\nResponse Style: ")
  ++ style
  ++ ("\n\nTask:\n" ++ mode_prompt ++ "\n\n" ++ assumption_instruction ++ "\n" ++ context_instructions ++ "\n\nContext Extracted:\n" ++ ctxRepr context ++ "\n\nUser Question:\n")
  ++ question
  ++ "\n"

-- ## Section 11-12: response generation and orchestrator

/-- Observable outcome of the generator capability on a prompt. -/
inductive GenOut : Type
  | raises : GenOut
  | returns : String → GenOut

/-- `generate_response`: returns the generated text, or the fixed apology if
the capability raises. -/
def generate_response (llm_main : String → GenOut) (prompt : String) : String :=
  match llm_main prompt with
  | GenOut.returns response => response
  | GenOut.raises => GEN_APOLOGY

/-- Line 488, `INTENT_THRESHOLDS.get(primary_intent, 0.6)`: an unhashable
key (list/dict) raises `TypeError`; any other unknown key gives 0.6. -/
def thresholdFor (p : JsonVal) : Except Unit ℚ :=
  match p with
  | JsonVal.jarr _ => Except.error ()
  | JsonVal.jobj _ => Except.error ()
  | JsonVal.jstr s => Except.ok ((plookup s INTENT_THRESHOLDS).getD (mkRat 6 10))
  | _ => Except.ok (mkRat 6 10)

/-- Lines 492-495, `CLARIFYING_QUESTIONS.get(primary_intent,
CLARIFYING_QUESTIONS["STORY_REFINEMENT"])` (only reached with a hashable
primary, since the threshold lookup came first). -/
def clarifyingFor (p : JsonVal) : String :=
  match p with
  | JsonVal.jstr s => (plookup s CLARIFYING_QUESTIONS).getD CQ_STORY_REFINEMENT
  | _ => CQ_STORY_REFINEMENT

/-- Line 503, `MODE_PROMPTS.get(primary_intent, MODE_PROMPTS["STORY_REFINEMENT"])`. -/
def modeFor (p : JsonVal) : String :=
  match p with
  | JsonVal.jstr s => (plookup s MODE_PROMPTS).getD MP_STORY_REFINEMENT
  | _ => MP_STORY_REFINEMENT

/-- Steps 5-8 of the orchestrator (after the threshold gate passed):
assumption gate, prompt composition, generation, `.strip()`, and the
secondary-intents suffix.  A `TypeError` from `", ".join(secondary_intents)`
propagates to the orchestrator failure boundary (the fixed apology). -/
def generationPhase (intent_data : ClassificationResult) (context : Ctx) (style : String) (llm_main : String → GenOut) (user_question : String) : String :=
  let needs_assumptions := assumption_gateJ intent_data.primary context
  let final_prompt := compose_final_prompt MASTER_PROMPT (modeFor intent_data.primary) user_question context style needs_assumptions
  let response := pyStrip (generate_response llm_main final_prompt)
  if truthy intent_data.secondary then
    match pyJoin ", " intent_data.secondary with
    | Except.ok joined => response ++ "\n\nWould you also like help with: " ++ joined ++ "?"
    | Except.error _ => PIPELINE_APOLOGY
  else response

/-- `jira_refinement_copilot_v2`: context extraction, style detection,
classification, dynamic threshold gate (strict `<`), then the generation
phase; any exception inside the `try` yields the fixed pipeline apology. -/
def jira_refinement_copilot_v2 (llm_classifier : String → ClassifierOut) (llm_main : String → GenOut) (user_question : String) : String :=
  let context := extract_context user_question
  let style := detect_response_style user_question
  let intent_data := classify_intent llm_classifier user_question
  match thresholdFor intent_data.primary, asNum intent_data.confidence with
  | Except.error _, _ => PIPELINE_APOLOGY
  | Except.ok _, none => PIPELINE_APOLOGY
  | Except.ok threshold, some c =>
    if c < threshold then clarifyingFor intent_data.primary
    else generationPhase intent_data context style llm_main user_question

-- ## Generic lemmas about the string and list helpers

theorem strData_append (s t : String) : (s ++ t).data = s.data ++ t.data := by
  cases s; cases t; rfl

theorem isPrefB_self_append (n b : List Char) : isPrefB n (n ++ b) = true := by
  induction n with
  | nil => rfl
  | cons a as ih => simp [isPrefB, ih]

theorem hasSubL_nil_left (h : List Char) : hasSubL [] h = true := by
  induction h with
  | nil => rfl
  | cons c t ih => simp [hasSubL, isPrefB]

theorem hasSubL_self_append (n b : List Char) : hasSubL n (n ++ b) = true := by
  cases n with
  | nil => simpa using hasSubL_nil_left b
  | cons a as =>
    simp only [hasSubL, List.cons_append, Bool.or_eq_true]
    exact Or.inl (by simpa using isPrefB_self_append (a :: as) b)

theorem hasSubL_append_left (a : List Char) {n h : List Char}
    (hh : hasSubL n h = true) : hasSubL n (a ++ h) = true := by
  induction a with
  | nil => simpa using hh
  | cons c t ih => simp [hasSubL, List.cons_append, ih]

theorem allStrings_none_of_mem {x : JsonVal} {xs : List JsonVal}
    (hm : x ∈ xs) (hx : isJStr x = false) : allStrings xs = none := by
  induction xs with
  | nil => cases hm
  | cons y ys ih =>
    cases hm with
    | head =>
      cases x with
      | jstr s => exact absurd hx (by simp [isJStr])
      | jnull => rfl
      | jbool b => rfl
      | jnum v => rfl
      | jarr l => rfl
      | jobj l => rfl
    | tail _ hmem =>
      cases y with
      | jstr s => simp [allStrings, ih hmem]
      | jnull => rfl
      | jbool b => rfl
      | jnum v => rfl
      | jarr l => rfl
      | jobj l => rfl

/-- C6: the style detector returns exactly one of CONVERSATIONAL, STRUCTURED,
HYBRID; the conversational keyword set is tested first, so a question
matching both keyword sets yields CONVERSATIONAL, and a question matching
neither yields HYBRID. -/
theorem detect_style_spec (question : String) :
    (detect_response_style question = "CONVERSATIONAL"
      ∨ detect_response_style question = "STRUCTURED"
      ∨ detect_response_style question = "HYBRID")
    ∧ (conversationalIndicator (pyLower question) = true
        ∧ structuredIndicator (pyLower question) = true →
        detect_response_style question = "CONVERSATIONAL")
    ∧ (conversationalIndicator (pyLower question) = false
        ∧ structuredIndicator (pyLower question) = false →
        detect_response_style question = "HYBRID") := by
  cases hc : conversationalIndicator (pyLower question) <;>
    cases hs : structuredIndicator (pyLower question) <;>
      simp [detect_response_style, hc, hs]

/-- C6 (witness): "Why define the scope?" matches a conversational keyword
("why") and structured keywords ("define", "scope") and is classified
CONVERSATIONAL; "Tell me more" matches neither set and is HYBRID. -/
theorem detect_style_spec_w :
    (conversationalIndicator (pyLower "Why define the scope?") = true
      ∧ structuredIndicator (pyLower "Why define the scope?") = true)
    ∧ detect_response_style "Why define the scope?" = "CONVERSATIONAL"
    ∧ detect_response_style "Tell me more" = "HYBRID" :=
  ⟨⟨rfl, rfl⟩, (detect_style_spec "Why define the scope?").2.1 ⟨rfl, rfl⟩,
    (detect_style_spec "Tell me more").2.2 ⟨rfl, rfl⟩⟩

/-- C7: the assumption gate returns, for ACCEPTANCE_CRITERIA and
DEVELOPMENT_READINESS, true exactly when the context is not UI-related; for
FIGMA_ALIGNMENT, true exactly when Figma is not mentioned; for
SCOPE_DEFINITION, true exactly when scope is not mentioned; and false for
every other intent regardless of context. -/
theorem assumption_gate_spec (c : Ctx) (i : String) :
    assumption_gate "ACCEPTANCE_CRITERIA" c = !c.ui_related
    ∧ assumption_gate "DEVELOPMENT_READINESS" c = !c.ui_related
    ∧ assumption_gate "FIGMA_ALIGNMENT" c = !c.mentions_figma
    ∧ assumption_gate "SCOPE_DEFINITION" c = !c.mentions_scope
    ∧ (i ≠ "ACCEPTANCE_CRITERIA" → i ≠ "DEVELOPMENT_READINESS" →
        i ≠ "FIGMA_ALIGNMENT" → i ≠ "SCOPE_DEFINITION" →
        assumption_gate i c = false) := by
  refine ⟨by simp [assumption_gate], by simp [assumption_gate],
    by simp [assumption_gate], by simp [assumption_gate], ?_⟩
  intro h1 h2 h3 h4
  simp [assumption_gate, h1, h2, h3, h4]

/-- C7 (witness): at a concrete context, OBJECTIVE_INTENT (none of the four
special intents) yields false. -/
theorem assumption_gate_spec_w :
    assumption_gate "OBJECTIVE_INTENT"
      ⟨false, false, false, false, false, false, false, false⟩ = false :=
  (assumption_gate_spec ⟨false, false, false, false, false, false, false, false⟩
      "OBJECTIVE_INTENT").2.2.2.2 (by decide) (by decide) (by decide) (by decide)

/-- C9: keyword matching in extract_context is substring containment on the
lower-cased question (not word matching): any question whose lower-casing
contains "ac" anywhere — e.g. "track" or "package" — has mentions_ac true;
the result record always carries all 8 boolean fields by construction. -/
theorem extract_context_substring (q : String) :
    (pyIn "ac" (pyLower q) = true → (extract_context q).mentions_ac = true)
    ∧ (extract_context "track").mentions_ac = true
    ∧ (extract_context "package").mentions_ac = true := by
  refine ⟨?_, rfl, rfl⟩
  intro h
  simp [extract_context, h]

/-- C9 (witness): "track" contains "ac", and its context has mentions_ac. -/
theorem extract_context_substring_w :
    pyIn "ac" (pyLower "track") = true
    ∧ (extract_context "track").mentions_ac = true :=
  ⟨rfl, (extract_context_substring "track").1 rfl⟩


theorem strAppend_assoc (a b c : String) : a ++ b ++ c = a ++ (b ++ c) := by
  cases a; cases b; cases c
  show String.mk _ = String.mk _
  rw [List.append_assoc]

theorem pyIn_mid (A m B : String) : pyIn m (A ++ m ++ B) = true := by
  simp only [pyIn, strData_append, List.append_assoc]
  exact hasSubL_append_left _ (hasSubL_self_append _ _)

/-- C8: for every master prompt, mode template, question, context, style and
assumption flag, the composed prompt contains the verbatim question text and
the literal style label as substrings, and composition is deterministic:
identical inputs give identical output strings. -/
theorem compose_final_prompt_spec (master mode_prompt question : String)
    (context : Ctx) (style : String) (flag : Bool) :
    pyIn question (compose_final_prompt master mode_prompt question context style flag) = true
    ∧ pyIn style (compose_final_prompt master mode_prompt question context style flag) = true
    ∧ compose_final_prompt master mode_prompt question context style flag
      = compose_final_prompt master mode_prompt question context style flag := by
  refine ⟨?_, ?_, rfl⟩
  · show pyIn question (_ ++ question ++ _) = true
    exact pyIn_mid _ _ _
  · show pyIn style (_ ++ style ++ _ ++ _ ++ _) = true
    rw [strAppend_assoc _ _ "\n", strAppend_assoc _ _ (question ++ "\n")]
    exact pyIn_mid _ _ _

/-- C1 (counterexample): for the unknown primary intent "NOT_AN_INTENT" the
threshold gate uses the hard default 0.6 even though the STORY_REFINEMENT
entry (0.5) is present in the table: with confidence 0.55 — which is not
below the STORY_REFINEMENT entry — the pipeline still returns the
STORY_REFINEMENT clarifying question instead of the generated text, so the
claimed fallback to the STORY_REFINEMENT threshold entry does not happen. -/
theorem threshold_default_cex :
    thresholdFor (JsonVal.jstr "NOT_AN_INTENT") = Except.ok (mkRat 6 10)
    ∧ plookup "STORY_REFINEMENT" INTENT_THRESHOLDS = some (mkRat 5 10)
    ∧ (mkRat 6 10 : ℚ) ≠ mkRat 5 10
    ∧ ¬ (mkRat 55 100 : ℚ) < mkRat 5 10
    ∧ jira_refinement_copilot_v2
        (fun _ => ClassifierOut.parsed (JsonVal.jobj
          [("primary_intent", JsonVal.jstr "NOT_AN_INTENT"),
           ("confidence", JsonVal.jnum (mkRat 55 100))]))
        (fun _ => GenOut.returns "GENERATED") "q"
      = CQ_STORY_REFINEMENT :=
  ⟨rfl, rfl, by decide, by decide, rfl⟩

/-- C1 (amended): for every primary intent that is not a key of the threshold
table, the threshold gate uses the hard-coded default 0.6 directly; the
table's STORY_REFINEMENT entry (present, 0.5) is not consulted for
thresholds — that fallback exists only for the clarifying-question and
mode-prompt tables. -/
theorem threshold_default_spec (s : String)
    (h : plookup s INTENT_THRESHOLDS = none) :
    thresholdFor (JsonVal.jstr s) = Except.ok (mkRat 6 10)
    ∧ plookup "STORY_REFINEMENT" INTENT_THRESHOLDS = some (mkRat 5 10) := by
  constructor
  · simp [thresholdFor, h]
  · rfl

/-- C1 (witness): the amended statement at the unknown intent "UNKNOWN". -/
theorem threshold_default_spec_w :
    thresholdFor (JsonVal.jstr "UNKNOWN") = Except.ok (mkRat 6 10)
    ∧ plookup "STORY_REFINEMENT" INTENT_THRESHOLDS = some (mkRat 5 10) :=
  threshold_default_spec "UNKNOWN" rfl

/-- C4: when the threshold lookup for the classified primary intent yields
`t` and the confidence is the number `c`: if `c < t` the orchestrator
returns the clarifying-question table entry for the primary intent (the
STORY_REFINEMENT entry when the intent is unknown — that is exactly
`clarifyingFor`), and its output does not depend on the generator
capability, which is therefore never invoked on this path; if `c = t`,
clarification is not triggered and the pipeline proceeds to prompt
composition and generation (`generationPhase`). -/
theorem threshold_gate_spec (llmc : String → ClassifierOut)
    (g g2 : String → GenOut) (q : String) (t c : ℚ)
    (ht : thresholdFor (classify_intent llmc q).primary = Except.ok t)
    (hc : asNum (classify_intent llmc q).confidence = some c) :
    (c < t →
      jira_refinement_copilot_v2 llmc g q = clarifyingFor (classify_intent llmc q).primary
      ∧ jira_refinement_copilot_v2 llmc g q = jira_refinement_copilot_v2 llmc g2 q)
    ∧ (c = t →
      jira_refinement_copilot_v2 llmc g q
        = generationPhase (classify_intent llmc q) (extract_context q)
            (detect_response_style q) g q) := by
  unfold jira_refinement_copilot_v2
  simp only [ht, hc]
  constructor
  · intro hlt
    rw [if_pos hlt, if_pos hlt]
    exact ⟨rfl, rfl⟩
  · intro heq
    subst heq
    rw [if_neg (lt_irrefl c)]

/-- C4 (witness): with OBJECTIVE_INTENT (threshold 0.7) and confidence 0.2
the orchestrator returns the OBJECTIVE_INTENT clarifying question and the
generator is irrelevant; with confidence exactly 0.7 it proceeds to the
generation phase. -/
theorem threshold_gate_spec_w :
    (jira_refinement_copilot_v2
        (fun _ => ClassifierOut.parsed (JsonVal.jobj
          [("primary_intent", JsonVal.jstr "OBJECTIVE_INTENT"),
           ("confidence", JsonVal.jnum (mkRat 2 10))]))
        (fun _ => GenOut.returns "A") "q"
      = clarifyingFor (classify_intent
          (fun _ => ClassifierOut.parsed (JsonVal.jobj
            [("primary_intent", JsonVal.jstr "OBJECTIVE_INTENT"),
             ("confidence", JsonVal.jnum (mkRat 2 10))])) "q").primary
      ∧ jira_refinement_copilot_v2
          (fun _ => ClassifierOut.parsed (JsonVal.jobj
            [("primary_intent", JsonVal.jstr "OBJECTIVE_INTENT"),
             ("confidence", JsonVal.jnum (mkRat 2 10))]))
          (fun _ => GenOut.returns "A") "q"
        = jira_refinement_copilot_v2
            (fun _ => ClassifierOut.parsed (JsonVal.jobj
              [("primary_intent", JsonVal.jstr "OBJECTIVE_INTENT"),
               ("confidence", JsonVal.jnum (mkRat 2 10))]))
            (fun _ => GenOut.returns "B") "q")
    ∧ jira_refinement_copilot_v2
        (fun _ => ClassifierOut.parsed (JsonVal.jobj
          [("primary_intent", JsonVal.jstr "OBJECTIVE_INTENT"),
           ("confidence", JsonVal.jnum (mkRat 7 10))]))
        (fun _ => GenOut.returns "A") "q"
      = generationPhase
          (classify_intent (fun _ => ClassifierOut.parsed (JsonVal.jobj
            [("primary_intent", JsonVal.jstr "OBJECTIVE_INTENT"),
             ("confidence", JsonVal.jnum (mkRat 7 10))])) "q")
          (extract_context "q") (detect_response_style "q")
          (fun _ => GenOut.returns "A") "q" :=
  ⟨(threshold_gate_spec
      (fun _ => ClassifierOut.parsed (JsonVal.jobj
        [("primary_intent", JsonVal.jstr "OBJECTIVE_INTENT"),
         ("confidence", JsonVal.jnum (mkRat 2 10))]))
      (fun _ => GenOut.returns "A") (fun _ => GenOut.returns "B") "q"
      (mkRat 7 10) (mkRat 2 10) rfl rfl).1 (by decide),
   (threshold_gate_spec
      (fun _ => ClassifierOut.parsed (JsonVal.jobj
        [("primary_intent", JsonVal.jstr "OBJECTIVE_INTENT"),
         ("confidence", JsonVal.jnum (mkRat 7 10))]))
      (fun _ => GenOut.returns "A") (fun _ => GenOut.returns "B") "q"
      (mkRat 7 10) (mkRat 7 10) rfl rfl).2 rfl⟩

/-- C2 (counterexample): classification passes the gate with the non-empty
secondary-intent list ["SCOPE_DEFINITION"] and the generator capability
raises; the orchestrator returns the fixed generation apology WITH the
secondary-intent suffix appended after it, so the returned string does not
equal the fixed apology string. -/
theorem generator_apology_cex :
    jira_refinement_copilot_v2
      (fun _ => ClassifierOut.parsed (JsonVal.jobj
        [("primary_intent", JsonVal.jstr "OBJECTIVE_INTENT"),
         ("secondary_intents", JsonVal.jarr [JsonVal.jstr "SCOPE_DEFINITION"]),
         ("confidence", JsonVal.jnum (mkRat 9 10))]))
      (fun _ => GenOut.raises) "hello"
      = GEN_APOLOGY ++ "\n\nWould you also like help with: SCOPE_DEFINITION?"
    ∧ jira_refinement_copilot_v2
        (fun _ => ClassifierOut.parsed (JsonVal.jobj
          [("primary_intent", JsonVal.jstr "OBJECTIVE_INTENT"),
           ("secondary_intents", JsonVal.jarr [JsonVal.jstr "SCOPE_DEFINITION"]),
           ("confidence", JsonVal.jnum (mkRat 9 10))]))
        (fun _ => GenOut.raises) "hello"
      ≠ GEN_APOLOGY :=
  ⟨rfl, by decide⟩

/-- C2 (amended): when the generator capability raises and the threshold
gate passed, the orchestrator returns exactly the fixed generation apology
if the classified secondary-intent value is falsy (e.g. the empty list);
when the secondary value is truthy and joinable, the follow-up suffix is
appended after the apology. -/
theorem generator_apology_spec (llmc : String → ClassifierOut)
    (g : String → GenOut) (q : String) (t c : ℚ)
    (ht : thresholdFor (classify_intent llmc q).primary = Except.ok t)
    (hc : asNum (classify_intent llmc q).confidence = some c)
    (hge : ¬ c < t)
    (hg : ∀ p, g p = GenOut.raises) :
    (truthy (classify_intent llmc q).secondary = false →
      jira_refinement_copilot_v2 llmc g q = GEN_APOLOGY)
    ∧ (∀ joined, truthy (classify_intent llmc q).secondary = true →
        pyJoin ", " (classify_intent llmc q).secondary = Except.ok joined →
        jira_refinement_copilot_v2 llmc g q
          = GEN_APOLOGY ++ "\n\nWould you also like help with: " ++ joined ++ "?") := by
  have hstrip : pyStrip GEN_APOLOGY = GEN_APOLOGY := rfl
  unfold jira_refinement_copilot_v2 generationPhase generate_response
  simp only [ht, hc, hg]
  rw [if_neg hge]
  constructor
  · intro hsec
    rw [hsec]
    simpa using hstrip
  · intro joined hsec hj
    rw [hsec, hj]
    simp [hstrip]

/-- C2 (witness): both amended branches at concrete inputs — with an absent
(hence empty) secondary list the raise yields exactly the apology; with
secondary ["SCOPE_DEFINITION"] the suffix is appended. -/
theorem generator_apology_spec_w :
    jira_refinement_copilot_v2
      (fun _ => ClassifierOut.parsed (JsonVal.jobj
        [("primary_intent", JsonVal.jstr "OBJECTIVE_INTENT"),
         ("confidence", JsonVal.jnum (mkRat 9 10))]))
      (fun _ => GenOut.raises) "hello"
      = GEN_APOLOGY
    ∧ jira_refinement_copilot_v2
        (fun _ => ClassifierOut.parsed (JsonVal.jobj
          [("primary_intent", JsonVal.jstr "OBJECTIVE_INTENT"),
           ("secondary_intents", JsonVal.jarr [JsonVal.jstr "SCOPE_DEFINITION"]),
           ("confidence", JsonVal.jnum (mkRat 9 10))]))
        (fun _ => GenOut.raises) "hi"
      = GEN_APOLOGY ++ "\n\nWould you also like help with: " ++ "SCOPE_DEFINITION" ++ "?" :=
  ⟨(generator_apology_spec
      (fun _ => ClassifierOut.parsed (JsonVal.jobj
        [("primary_intent", JsonVal.jstr "OBJECTIVE_INTENT"),
         ("confidence", JsonVal.jnum (mkRat 9 10))]))
      (fun _ => GenOut.raises) "hello" (mkRat 7 10) (mkRat 9 10)
      rfl rfl (by decide) (fun _ => rfl)).1 rfl,
   (generator_apology_spec
      (fun _ => ClassifierOut.parsed (JsonVal.jobj
        [("primary_intent", JsonVal.jstr "OBJECTIVE_INTENT"),
         ("secondary_intents", JsonVal.jarr [JsonVal.jstr "SCOPE_DEFINITION"]),
         ("confidence", JsonVal.jnum (mkRat 9 10))]))
      (fun _ => GenOut.raises) "hi" (mkRat 7 10) (mkRat 9 10)
      rfl rfl (by decide) (fun _ => rfl)).2 "SCOPE_DEFINITION" rfl rfl⟩

/-- C10: when classification passed the threshold gate but the classified
secondary_intents value is a non-empty list containing a non-string element,
the orchestrator returns the fixed unexpected-error apology regardless of
the generator capability (in particular even when it succeeds): building the
", ".join suffix raises TypeError, which the top-level failure boundary
absorbs. -/
theorem secondary_nonstring_apology (llmc : String → ClassifierOut)
    (g : String → GenOut) (q : String) (t c : ℚ)
    (xs : List JsonVal) (x : JsonVal)
    (ht : thresholdFor (classify_intent llmc q).primary = Except.ok t)
    (hc : asNum (classify_intent llmc q).confidence = some c)
    (hge : ¬ c < t)
    (hsec : (classify_intent llmc q).secondary = JsonVal.jarr xs)
    (hm : x ∈ xs) (hx : isJStr x = false) :
    jira_refinement_copilot_v2 llmc g q = PIPELINE_APOLOGY := by
  have hall : allStrings xs = none := allStrings_none_of_mem hm hx
  unfold jira_refinement_copilot_v2 generationPhase
  simp only [ht, hc, hsec]
  rw [if_neg hge]
  cases xs with
  | nil => cases hm
  | cons y ys => simp [truthy, pyJoin, hall]

/-- C10 (witness): secondary_intents [5] with a passing confidence and a
succeeding generator still yields the pipeline apology. -/
theorem secondary_nonstring_apology_w :
    jira_refinement_copilot_v2
      (fun _ => ClassifierOut.parsed (JsonVal.jobj
        [("primary_intent", JsonVal.jstr "OBJECTIVE_INTENT"),
         ("secondary_intents", JsonVal.jarr [JsonVal.jnum 5]),
         ("confidence", JsonVal.jnum (mkRat 9 10))]))
      (fun _ => GenOut.returns "OK") "hi"
      = PIPELINE_APOLOGY :=
  secondary_nonstring_apology
    (fun _ => ClassifierOut.parsed (JsonVal.jobj
      [("primary_intent", JsonVal.jstr "OBJECTIVE_INTENT"),
       ("secondary_intents", JsonVal.jarr [JsonVal.jnum 5]),
       ("confidence", JsonVal.jnum (mkRat 9 10))]))
    (fun _ => GenOut.returns "OK") "hi" (mkRat 7 10) (mkRat 9 10)
    [JsonVal.jnum 5] (JsonVal.jnum 5)
    rfl rfl (by decide) rfl (List.mem_singleton.mpr rfl) rfl

/-- C3 (counterexample): the classifier text "3" is valid JSON but not an
object; the claim maps it to the parse-failure result with confidence 0.4,
but the code's `data.get` raises AttributeError, which the generic handler
catches, yielding confidence 0.3. -/
theorem classify_nonobject_cex :
    classify_intent (fun _ => ClassifierOut.parsed (JsonVal.jnum 3)) "q"
      = ⟨JsonVal.jstr "STORY_REFINEMENT", JsonVal.jarr [], JsonVal.jnum (mkRat 3 10)⟩
    ∧ (mkRat 3 10 : ℚ) ≠ mkRat 4 10 :=
  ⟨rfl, by decide⟩

/-- C3 (amended): classify_intent degrades as follows — capability raises:
{STORY_REFINEMENT, [], 0.3}; returned text not valid JSON: {STORY_REFINEMENT,
[], 0.4}; text valid JSON but not an object: {STORY_REFINEMENT, [], 0.3}
(the AttributeError falls into the generic handler, not the JSON-decode
handler); text parsing to an object: absent primary_intent defaults to
STORY_REFINEMENT, absent secondary_intents to the empty list, absent
confidence to 0.5. -/
theorem classify_intent_spec (llmc : String → ClassifierOut) (q : String)
    (fs : List (String × JsonVal)) (j : JsonVal) :
    (llmc (INTENT_CLASSIFIER_PROMPT_format q) = ClassifierOut.raises →
      classify_intent llmc q
        = ⟨JsonVal.jstr "STORY_REFINEMENT", JsonVal.jarr [], JsonVal.jnum (mkRat 3 10)⟩)
    ∧ (llmc (INTENT_CLASSIFIER_PROMPT_format q) = ClassifierOut.badJson →
      classify_intent llmc q
        = ⟨JsonVal.jstr "STORY_REFINEMENT", JsonVal.jarr [], JsonVal.jnum (mkRat 4 10)⟩)
    ∧ (llmc (INTENT_CLASSIFIER_PROMPT_format q) = ClassifierOut.parsed j →
      isJObj j = false →
      classify_intent llmc q
        = ⟨JsonVal.jstr "STORY_REFINEMENT", JsonVal.jarr [], JsonVal.jnum (mkRat 3 10)⟩)
    ∧ (llmc (INTENT_CLASSIFIER_PROMPT_format q) = ClassifierOut.parsed (JsonVal.jobj fs) →
      (plookup "primary_intent" fs = none →
        (classify_intent llmc q).primary = JsonVal.jstr "STORY_REFINEMENT")
      ∧ (plookup "secondary_intents" fs = none →
        (classify_intent llmc q).secondary = JsonVal.jarr [])
      ∧ (plookup "confidence" fs = none →
        (classify_intent llmc q).confidence = JsonVal.jnum (mkRat 5 10))) := by
  refine ⟨?_, ?_, ?_, ?_⟩
  · intro h
    unfold classify_intent
    simp only [h]
  · intro h
    unfold classify_intent
    simp only [h]
  · intro h hobj
    unfold classify_intent
    simp only [h]
    cases j with
    | jobj fs2 => simp [isJObj] at hobj
    | jnull => rfl
    | jbool b => rfl
    | jnum v => rfl
    | jstr s => rfl
    | jarr l => rfl
  · intro h
    refine ⟨?_, ?_, ?_⟩
    · intro hp
      unfold classify_intent
      simp only [h]
      split
      · simp [hp]
      · rfl
    · intro hs
      unfold classify_intent
      simp only [h]
      split
      · simp [hs]
      · rfl
    · intro hcf
      unfold classify_intent
      simp only [h, hcf]
      simp [formattableF]

/-- C3 (witness): the four branches at concrete capability outcomes; for the
object branch, the empty object defaults all three fields. -/
theorem classify_intent_spec_w :
    classify_intent (fun _ => ClassifierOut.raises) "q"
      = ⟨JsonVal.jstr "STORY_REFINEMENT", JsonVal.jarr [], JsonVal.jnum (mkRat 3 10)⟩
    ∧ classify_intent (fun _ => ClassifierOut.badJson) "q"
      = ⟨JsonVal.jstr "STORY_REFINEMENT", JsonVal.jarr [], JsonVal.jnum (mkRat 4 10)⟩
    ∧ classify_intent (fun _ => ClassifierOut.parsed (JsonVal.jstr "not an object")) "q"
      = ⟨JsonVal.jstr "STORY_REFINEMENT", JsonVal.jarr [], JsonVal.jnum (mkRat 3 10)⟩
    ∧ (classify_intent (fun _ => ClassifierOut.parsed (JsonVal.jobj [])) "q").primary
      = JsonVal.jstr "STORY_REFINEMENT"
    ∧ (classify_intent (fun _ => ClassifierOut.parsed (JsonVal.jobj [])) "q").secondary
      = JsonVal.jarr []
    ∧ (classify_intent (fun _ => ClassifierOut.parsed (JsonVal.jobj [])) "q").confidence
      = JsonVal.jnum (mkRat 5 10) :=
  ⟨(classify_intent_spec (fun _ => ClassifierOut.raises) "q" [] JsonVal.jnull).1 rfl,
   (classify_intent_spec (fun _ => ClassifierOut.badJson) "q" [] JsonVal.jnull).2.1 rfl,
   (classify_intent_spec (fun _ => ClassifierOut.parsed (JsonVal.jstr "not an object")) "q"
      [] (JsonVal.jstr "not an object")).2.2.1 rfl rfl,
   ((classify_intent_spec (fun _ => ClassifierOut.parsed (JsonVal.jobj [])) "q"
      [] JsonVal.jnull).2.2.2 rfl).1 rfl,
   ((classify_intent_spec (fun _ => ClassifierOut.parsed (JsonVal.jobj [])) "q"
      [] JsonVal.jnull).2.2.2 rfl).2.1 rfl,
   ((classify_intent_spec (fun _ => ClassifierOut.parsed (JsonVal.jobj [])) "q"
      [] JsonVal.jnull).2.2.2 rfl).2.2 rfl⟩

/-- C5 (counterexample): a parsed object carrying confidence 2.0 flows
through classify_intent unclamped — the result confidence is 2.0, outside
[0, 1] — and is handed to the threshold gate, which lets the pipeline
proceed to generation (2.0 is not below the 0.5 STORY_REFINEMENT
threshold). -/
theorem confidence_range_cex :
    (classify_intent (fun _ => ClassifierOut.parsed
        (JsonVal.jobj [("confidence", JsonVal.jnum 2)])) "q").confidence
      = JsonVal.jnum 2
    ∧ ¬ ((2 : ℚ) ≤ 1)
    ∧ jira_refinement_copilot_v2
        (fun _ => ClassifierOut.parsed (JsonVal.jobj [("confidence", JsonVal.jnum 2)]))
        (fun _ => GenOut.returns "GENERATED") "q"
      = "GENERATED" :=
  ⟨rfl, by decide, rfl⟩

/-- C5 (amended): classify_intent keeps confidence in [0, 1] on every
degraded or defaulted path (0.3, 0.4, 0.5), but a confidence value supplied
by a parsed object is passed through unvalidated, so any out-of-range number
the capability supplies reaches the threshold gate. -/
theorem confidence_passthrough (llmc : String → ClassifierOut) (q : String) :
    (∃ v : ℚ, (classify_intent llmc q).confidence = JsonVal.jnum v ∧ 0 ≤ v ∧ v ≤ 1)
    ∨ (∃ fs, llmc (INTENT_CLASSIFIER_PROMPT_format q) = ClassifierOut.parsed (JsonVal.jobj fs)
        ∧ plookup "confidence" fs = some ((classify_intent llmc q).confidence)) := by
  cases h : llmc (INTENT_CLASSIFIER_PROMPT_format q) with
  | raises =>
    exact Or.inl ⟨mkRat 3 10, by simp [classify_intent, h], by decide, by decide⟩
  | badJson =>
    exact Or.inl ⟨mkRat 4 10, by simp [classify_intent, h], by decide, by decide⟩
  | parsed j =>
    cases j with
    | jnull => exact Or.inl ⟨mkRat 3 10, by simp [classify_intent, h], by decide, by decide⟩
    | jbool b => exact Or.inl ⟨mkRat 3 10, by simp [classify_intent, h], by decide, by decide⟩
    | jnum v => exact Or.inl ⟨mkRat 3 10, by simp [classify_intent, h], by decide, by decide⟩
    | jstr s => exact Or.inl ⟨mkRat 3 10, by simp [classify_intent, h], by decide, by decide⟩
    | jarr l => exact Or.inl ⟨mkRat 3 10, by simp [classify_intent, h], by decide, by decide⟩
    | jobj fs =>
      cases hcf : plookup "confidence" fs with
      | none =>
        exact Or.inl ⟨mkRat 5 10,
          by simp [classify_intent, h, hcf, formattableF], by decide, by decide⟩
      | some v =>
        cases hv : formattableF v with
        | false =>
          exact Or.inl ⟨mkRat 3 10, by simp [classify_intent, h, hcf, hv], by decide, by decide⟩
        | true =>
          exact Or.inr ⟨fs, rfl, by simp [classify_intent, h, hcf, hv]⟩
